import Mathlib

/-!
Shallow embedding of the validated weather-fetch proxy of a Next.js weather
dashboard.  The embedded source files are:

* `src/lib/open-meteo.ts` — coordinate validation (`isValidAU_NZCoords`) and
  upstream URL construction (`buildUrl`);
* `src/lib/schema.ts` — the zod response schemas `ZHourly` / `ZDaily`
  (an object with a required `hourly`/`daily` sub-object whose `time` field is
  an array of strings, `.passthrough()` on the inner object, the zod default
  strip behaviour on the outer object);
* `src/app/api/weather/route.ts` — `fetchWithRetry` (bounded retry with
  exponential backoff) and the `GET` request handler.

Modelling choices:

* JavaScript numbers are modelled as exact values: `NaN`, the two infinities,
  or a finite exact fraction (`Frac`, an integer numerator over a positive
  power-of-ten style denominator, kept unnormalized so that all arithmetic is
  kernel-computable).  `Frac.toRat` gives the denoted rational; the comparison
  operators follow the JS semantics (every comparison involving `NaN` is
  false).  Double rounding/overflow is not modelled, values are kept exact.
* The string-to-number coercion `Number(s)` is modelled by `jsNumber`,
  following the ECMAScript `StringNumericLiteral` grammar (whitespace
  trimming, empty string to `0`, optional sign, decimal literals with
  fraction and exponent, `Infinity`, and the `0x`/`0o`/`0b` radix forms).
* JSON values are a standard inductive type; object fields are ordered
  association lists and key lookup takes the first occurrence.
* The network is supplied as an explicit sequence of per-attempt outcomes
  (`Nat → FetchOutcome`); `fetchWithRetry` and `GET` return a trace recording
  the result, the number of fetch calls performed and the backoff sleeps,
  so that call counts and delays are provable facts.
-/

namespace Weather

/-! ## Exact finite JS numbers -/

/-- An exact, unnormalized fraction `num / den`.  The operations used by the
embedding keep `den` positive; statements that relate a `Frac` to the
rational it denotes carry `0 < den` as a hypothesis. -/
structure Frac where
  num : Int
  den : Nat
deriving DecidableEq

/-- Decimal literals: `43.6` is `⟨436, 10⟩`. -/
instance : OfScientific Frac :=
  ⟨fun m b e => if b then ⟨(m : Int), 10 ^ e⟩ else ⟨(m : Int) * 10 ^ e, 1⟩⟩

instance : Neg Frac := ⟨fun f => ⟨-f.num, f.den⟩⟩

instance (n : Nat) : OfNat Frac n := ⟨⟨(n : Int), 1⟩⟩

/-- The rational denoted by a fraction. -/
def Frac.toRat (a : Frac) : ℚ := (a.num : ℚ) / (a.den : ℚ)

/-- Exact `≤` by cross multiplication (agrees with `toRat` ordering for
positive denominators). -/
def Frac.ble (a b : Frac) : Bool :=
  decide (a.num * (b.den : Int) ≤ b.num * (a.den : Int))

/-- Addition of fractions (no normalization). -/
def Frac.add (a b : Frac) : Frac :=
  ⟨a.num * (b.den : Int) + b.num * (a.den : Int), a.den * b.den⟩

/-- Division by `10 ^ k`. -/
def Frac.divPow10 (a : Frac) (k : Nat) : Frac := ⟨a.num, a.den * 10 ^ k⟩

/-- Multiplication by `10 ^ k`. -/
def Frac.mulPow10 (a : Frac) (k : Nat) : Frac := ⟨a.num * (10 ^ k : Nat), a.den⟩

/-- Negation used by the sign of a parsed literal. -/
def Frac.neg (a : Frac) : Frac := ⟨-a.num, a.den⟩

/-! ## JavaScript numbers -/

/-- A JavaScript number: `NaN`, one of the two infinities, or a finite exact
value. -/
inductive JsNum where
  | nan
  | posInf
  | negInf
  | fin (q : Frac)
deriving DecidableEq

/-- JS `<=` on numbers: any comparison involving `NaN` is false. -/
def JsNum.le : JsNum → JsNum → Bool
  | .nan, _ => false
  | _, .nan => false
  | .negInf, _ => true
  | _, .posInf => true
  | .posInf, _ => false
  | _, .negInf => false
  | .fin a, .fin b => Frac.ble a b

/-- JS `>=` on numbers. -/
def JsNum.ge (a b : JsNum) : Bool := JsNum.le b a

/-- JS `isNaN` on a number. -/
def JsNum.isNan : JsNum → Bool
  | .nan => true
  | _ => false

/-- True exactly on finite values. -/
def JsNum.isFinite : JsNum → Bool
  | .fin _ => true
  | _ => false

/-! ## The string-to-number coercion `Number(s)` -/

/-- JS whitespace characters trimmed by `ToNumber` on strings. -/
def isJsWhitespace (c : Char) : Bool :=
  c = ' ' || c = '\t' || c = '\n' || c = '\r' ||
  c = '\u000B' || c = '\u000C' || c = ' ' || c = '﻿'

/-- Trim JS whitespace from both ends of a character list. -/
def trimJs (cs : List Char) : List Char :=
  ((cs.dropWhile isJsWhitespace).reverse.dropWhile isJsWhitespace).reverse

/-- Decimal digit value of a character, if any. -/
def decDigit? (c : Char) : Option Nat :=
  if '0' ≤ c ∧ c ≤ '9' then some (c.toNat - '0'.toNat) else none

/-- Hexadecimal digit value of a character, if any. -/
def hexDigit? (c : Char) : Option Nat :=
  if '0' ≤ c ∧ c ≤ '9' then some (c.toNat - '0'.toNat)
  else if 'a' ≤ c ∧ c ≤ 'f' then some (c.toNat - 'a'.toNat + 10)
  else if 'A' ≤ c ∧ c ≤ 'F' then some (c.toNat - 'A'.toNat + 10)
  else none

/-- Octal digit value of a character, if any. -/
def octDigit? (c : Char) : Option Nat :=
  if '0' ≤ c ∧ c ≤ '7' then some (c.toNat - '0'.toNat) else none

/-- Binary digit value of a character, if any. -/
def binDigit? (c : Char) : Option Nat :=
  if c = '0' then some 0 else if c = '1' then some 1 else none

/-- Consume a maximal run of digits in the given base, returning the number of
digits consumed, their accumulated value, and the remaining characters. -/
def takeDigits (digit? : Char → Option Nat) (base : Nat) :
    List Char → Nat → Nat → Nat × Nat × List Char
  | [], count, acc => (count, acc, [])
  | c :: cs, count, acc =>
    match digit? c with
    | some d => takeDigits digit? base cs (count + 1) (acc * base + d)
    | none => (count, acc, c :: cs)

/-- Parse an exponent part `e`/`E` with optional sign and at least one digit. -/
def parseExponentPart : List Char → Option (Int × List Char)
  | c :: cs =>
    if c = 'e' ∨ c = 'E' then
      match cs with
      | '+' :: cs2 =>
        match takeDigits decDigit? 10 cs2 0 0 with
        | (0, _, _) => none
        | (_, v, rest) => some ((v : Int), rest)
      | '-' :: cs2 =>
        match takeDigits decDigit? 10 cs2 0 0 with
        | (0, _, _) => none
        | (_, v, rest) => some (-(v : Int), rest)
      | _ =>
        match takeDigits decDigit? 10 cs 0 0 with
        | (0, _, _) => none
        | (_, v, rest) => some ((v : Int), rest)
    else none
  | [] => none

/-- Scale a fraction by a signed power of ten. -/
def applyExponent (q : Frac) (e : Int) : Frac :=
  if 0 ≤ e then q.mulPow10 e.toNat else q.divPow10 (-e).toNat

/-- After the integer digits of a decimal literal: optional fraction, optional
exponent; succeeds only when the whole remainder is consumed. -/
def parseDecTail (intPart : Frac) (rest : List Char) : Option Frac :=
  let fracState :=
    match rest with
    | '.' :: cs =>
      match takeDigits decDigit? 10 cs 0 0 with
      | (count, v, rest2) => (Frac.divPow10 ⟨(v : Int), 1⟩ count, rest2)
    | _ => ((⟨0, 1⟩ : Frac), rest)
  match fracState.2 with
  | [] => some (intPart.add fracState.1)
  | _ =>
    match parseExponentPart fracState.2 with
    | some (e, []) => some (applyExponent (intPart.add fracState.1) e)
    | _ => none

/-- Attach a JS sign to a finite parsed value. -/
def finSigned (pos : Bool) (q : Frac) : JsNum :=
  .fin (if pos then q else q.neg)

/-- Parse a `StrUnsignedDecimalLiteral` (after the optional sign):
`Infinity`, `digits [. digits] [exp]`, or `. digits [exp]`. -/
def parseUnsignedJs (cs : List Char) (pos : Bool) : JsNum :=
  if cs = "Infinity".toList then (if pos then .posInf else .negInf)
  else
    match cs with
    | '.' :: cs1 =>
      match takeDigits decDigit? 10 cs1 0 0 with
      | (0, _, _) => .nan
      | (count, v, rest) =>
        match rest with
        | [] => finSigned pos (Frac.divPow10 ⟨(v : Int), 1⟩ count)
        | _ =>
          match parseExponentPart rest with
          | some (e, []) =>
            finSigned pos (applyExponent (Frac.divPow10 ⟨(v : Int), 1⟩ count) e)
          | _ => .nan
    | _ =>
      match takeDigits decDigit? 10 cs 0 0 with
      | (0, _, _) => .nan
      | (_, v, rest) =>
        match parseDecTail ⟨(v : Int), 1⟩ rest with
        | some q => finSigned pos q
        | none => .nan

/-- Parse an optionally signed decimal literal. -/
def parseSignedJs : List Char → JsNum
  | '+' :: cs => parseUnsignedJs cs true
  | '-' :: cs => parseUnsignedJs cs false
  | cs => parseUnsignedJs cs true

/-- Parse a whole-string radix literal (the part after `0x`/`0o`/`0b`). -/
def parseRadixAll (digit? : Char → Option Nat) (base : Nat) (cs : List Char) : JsNum :=
  match takeDigits digit? base cs 0 0 with
  | (0, _, _) => .nan
  | (_, v, []) => .fin ⟨(v : Int), 1⟩
  | _ => .nan

/-- Model of the JS coercion `Number(s)` for strings: trims whitespace, maps
the empty string to `0`, accepts decimal literals with optional sign,
fraction and exponent, signed `Infinity`, and unsigned `0x`/`0o`/`0b`
literals; every other string maps to `NaN`. -/
def jsNumber (s : String) : JsNum :=
  match trimJs s.toList with
  | [] => .fin 0
  | '0' :: c :: rest =>
    if c = 'x' ∨ c = 'X' then parseRadixAll hexDigit? 16 rest
    else if c = 'o' ∨ c = 'O' then parseRadixAll octDigit? 8 rest
    else if c = 'b' ∨ c = 'B' then parseRadixAll binDigit? 2 rest
    else parseSignedJs ('0' :: c :: rest)
  | cs => parseSignedJs cs

/-! ## Coordinate validation (`src/lib/open-meteo.ts`) -/

/-- `isValidAU_NZCoords({lat, lon})` from `src/lib/open-meteo.ts`:
true when the point lies in the Australia box
(lat `-43.6` to `-10.7`, lon `113.3` to `153.6`) or the New Zealand box
(lat `-47.3` to `-34.4`, lon `166.4` to `178.6`), all comparisons
JS `>=`/`<=` (boundary-inclusive, false on `NaN`). -/
def isValidAU_NZCoords (lat lon : JsNum) : Bool :=
  let isAustralia :=
    lat.ge (.fin (-43.6)) && lat.le (.fin (-10.7)) &&
    lon.ge (.fin 113.3) && lon.le (.fin 153.6)
  let isNewZealand :=
    lat.ge (.fin (-47.3)) && lat.le (.fin (-34.4)) &&
    lon.ge (.fin 166.4) && lon.le (.fin 178.6)
  isAustralia || isNewZealand

/-! ## JSON values -/

/-- A decoded JSON value.  Object fields are kept in order; lookup takes the
first occurrence of a key. -/
inductive Json where
  | null
  | bool (b : Bool)
  | num (q : Frac)
  | str (s : String)
  | arr (elems : List Json)
  | obj (fields : List (String × Json))

/-- The zod-style name of a JSON value's type (used in error messages). -/
def Json.typeName : Json → String
  | .null => "null"
  | .bool _ => "boolean"
  | .num _ => "number"
  | .str _ => "string"
  | .arr _ => "array"
  | .obj _ => "object"

/-- True exactly on JSON strings. -/
def Json.isStr : Json → Bool
  | .str _ => true
  | _ => false

/-- Fuel-bounded structural equality test on JSON values (fuel keeps the
recursion structural, hence kernel-computable; used to separate concrete
values in counterexamples). -/
def Json.beqFuel : Nat → Json → Json → Bool
  | 0, _, _ => false
  | _ + 1, .null, .null => true
  | _ + 1, .bool a, .bool b => a == b
  | _ + 1, .num a, .num b => a == b
  | _ + 1, .str a, .str b => a == b
  | n + 1, .arr xs, .arr ys =>
    xs.length == ys.length && (xs.zip ys).all fun p => Json.beqFuel n p.1 p.2
  | n + 1, .obj fs, .obj gs =>
    fs.length == gs.length && (fs.zip gs).all fun p =>
      p.1.1 == p.2.1 && Json.beqFuel n p.1.2 p.2.2
  | _ + 1, _, _ => false

/-! ## Upstream URL construction (`src/lib/open-meteo.ts`) -/

/-- The fixed upstream base path `BASE`. -/
def BASE : String := "https://api.open-meteo.com/v1/forecast"

/-- The `BuildUrlParams` option object of `buildUrl` (`end` is a Lean keyword,
hence the field name `end_`; all fields optional as in the source). -/
structure BuildUrlParams where
  start : Option String := none
  end_ : Option String := none
  tz : Option String := none
  vars : Option (List String) := none

/-- A built URL: the fixed base plus the ordered query parameters, modelling
`new URL(BASE)` followed by the `searchParams.set` calls and `toString()`. -/
structure UrlModel where
  base : String
  query : List (String × String)
deriving DecidableEq

/-- `URLSearchParams.set`: replace the value of an existing key, else append
at the end. -/
def setParam (q : List (String × String)) (k v : String) : List (String × String) :=
  if q.any (fun p => p.1 == k) then q.map (fun p => if p.1 == k then (k, v) else p)
  else q ++ [(k, v)]

/-- Stands in for the JS rendering `String(n)` of a number.  The exact digit
string of a finite value is not relied on by any theorem. -/
def jsNumToString : JsNum → String
  | .nan => "NaN"
  | .posInf => "Infinity"
  | .negInf => "-Infinity"
  | .fin q => toString q.num ++ "/" ++ toString q.den

/-- `buildUrl({lat, lon}, granularity, params)` from `src/lib/open-meteo.ts`:
rejects out-of-region coordinates with a thrown error (modelled as
`Except.error` with the thrown message), otherwise sets `latitude`,
`longitude`, `timezone` (default `auto`), the granularity-named parameter
with the comma-joined variable list (defaults depending on granularity),
and `start_date`/`end_date` when the corresponding option is truthy.
The TS annotation `granularity: 'hourly' | 'daily'` is erased at runtime and
the handler passes the raw `gran` query value through an unchecked cast, so
granularity is modelled as a string compared against the two literals. -/
def buildUrl (lat lon : JsNum) (granularity : String)
    (params : BuildUrlParams := {}) : Except String UrlModel :=
  if !(isValidAU_NZCoords lat lon) then
    .error "Coordinates must be within Australia or New Zealand bounds"
  else
    let q := setParam [] "latitude" (jsNumToString lat)
    let q := setParam q "longitude" (jsNumToString lon)
    let q := setParam q "timezone" (params.tz.getD "auto")
    let q := if granularity == "hourly" then
        setParam q "hourly"
          (String.intercalate ","
            (params.vars.getD ["temperature_2m", "precipitation", "windspeed_10m"]))
      else q
    let q := if granularity == "daily" then
        setParam q "daily"
          (String.intercalate ","
            (params.vars.getD
              ["temperature_2m_max", "temperature_2m_min", "precipitation_sum",
               "windspeed_10m_max"]))
      else q
    let q := match params.start with
      | some s => if s == "" then q else setParam q "start_date" s
      | none => q
    let q := match params.end_ with
      | some s => if s == "" then q else setParam q "end_date" s
      | none => q
    .ok ⟨BASE, q⟩

/-! ## Response schema validation (`src/lib/schema.ts`) -/

/-- A step in a zod issue path: an object key or an array index. -/
inductive PathItem where
  | key (k : String)
  | idx (i : Nat)
deriving DecidableEq

/-- A zod issue: a path plus a human-readable message. -/
structure SchemaIssue where
  path : List PathItem
  message : String
deriving DecidableEq

/-- Issues produced by `z.array(z.string())` for the non-string elements,
collected over all indices as zod does. -/
def checkStringElems (p : List PathItem) : Nat → List Json → List SchemaIssue
  | _, [] => []
  | i, x :: xs =>
    (match x with
     | .str _ => ([] : List SchemaIssue)
     | _ => [⟨p ++ [.idx i], "Expected string, received " ++ x.typeName⟩]) ++
    checkStringElems p (i + 1) xs

/-- `z.array(z.string())` at path `p`. -/
def parseTimeArray (p : List PathItem) (j : Json) : Except (List SchemaIssue) Json :=
  match j with
  | .arr xs =>
    match checkStringElems p 0 xs with
    | [] => .ok (.arr xs)
    | e :: es => .error (e :: es)
  | _ => .error [⟨p, "Expected array, received " ++ j.typeName⟩]

/-- `z.object({ time: z.array(z.string()) }).passthrough()` under the key
`key`: requires a `time` field that is an array of strings and keeps every
field of the object (passthrough). -/
def parseInnerObject (key : String) (j : Json) : Except (List SchemaIssue) Json :=
  match j with
  | .obj fields =>
    match fields.lookup "time" with
    | none => .error [⟨[.key key, .key "time"], "Required"⟩]
    | some t =>
      match parseTimeArray [.key key, .key "time"] t with
      | .ok _ => .ok (.obj fields)
      | .error es => .error es
  | _ => .error [⟨[.key key], "Expected object, received " ++ j.typeName⟩]

/-- `z.object({ key: inner })` with the zod default unknown-key behaviour on
the outer object (strip: the parsed value keeps only the declared key). -/
def safeParseShape (key : String) (j : Json) : Except (List SchemaIssue) Json :=
  match j with
  | .obj fields =>
    match fields.lookup key with
    | none => .error [⟨[.key key], "Required"⟩]
    | some h =>
      match parseInnerObject key h with
      | .ok h2 => .ok (.obj [(key, h2)])
      | .error es => .error es
  | _ => .error [⟨[], "Expected object, received " ++ j.typeName⟩]

/-- `ZHourly.safeParse` from `src/lib/schema.ts`. -/
def ZHourly_safeParse (j : Json) : Except (List SchemaIssue) Json :=
  safeParseShape "hourly" j

/-- `ZDaily.safeParse` from `src/lib/schema.ts`. -/
def ZDaily_safeParse (j : Json) : Except (List SchemaIssue) Json :=
  safeParseShape "daily" j

/-- Serialization of a path item in zod's error output. -/
def PathItem.toJson : PathItem → Json
  | .key k => .str k
  | .idx i => .num ⟨(i : Int), 1⟩

/-- Serialization of the issue list, as `parsed.error.errors` in the 500
response body. -/
def issuesToJson (issues : List SchemaIssue) : Json :=
  .arr (issues.map fun i =>
    .obj [("path", .arr (i.path.map PathItem.toJson)), ("message", .str i.message)])

/-! ## Retrying fetch (`src/app/api/weather/route.ts`) -/

/-- A settled upstream `Response`: its `ok` flag, status and decoded JSON
body. -/
structure UpstreamResponse where
  ok : Bool
  status : Nat
  body : Json

/-- One network attempt as seen by `fetchWithRetry`: either a settled
response (any status) or a thrown transport error. -/
inductive FetchOutcome where
  | resp (r : UpstreamResponse)
  | exn (msg : String)

/-- The failure `fetchWithRetry` can throw: the final `Error('All retry
attempts failed')` after the loop, or the transport error rethrown from the
last attempt. -/
inductive RetryError where
  | allFailed
  | transport (msg : String)
deriving DecidableEq

/-- The `Error.message` of a thrown retry failure, as read by the handler's
catch block. -/
def RetryError.message : RetryError → String
  | .allFailed => "All retry attempts failed"
  | .transport m => m

/-- Observable trace of one `fetchWithRetry` run: the returned response or
thrown error, the number of `fetch` calls performed, and the backoff sleeps
(in ms, in order). -/
structure RetryTrace where
  result : Except RetryError UpstreamResponse
  calls : Nat
  sleeps : List Nat

/-- `const delays = [1000, 2000, 4000]` (`delays[k]` for `k ≥ 3` is
`undefined` in JS, which `setTimeout` treats as no delay, hence default 0 —
unreachable for the default `maxAttempts = 3`). -/
def retryDelays : List Nat := [1000, 2000, 4000]

/-- The `for (let attempt = 0; attempt < maxAttempts; attempt++)` loop of
`fetchWithRetry`, with `remaining = maxAttempts - attempt`; the `remaining =
0` guard inside the body is the source's `attempt < maxAttempts - 1` test. -/
def fetchRetryGo (fetcher : Nat → FetchOutcome) : Nat → Nat → RetryTrace
  | _, 0 => ⟨.error .allFailed, 0, []⟩
  | attempt, remaining + 1 =>
    match fetcher attempt with
    | .resp r =>
      if r.ok then ⟨.ok r, 1, []⟩
      else if remaining = 0 then ⟨.error .allFailed, 1, []⟩
      else
        let t := fetchRetryGo fetcher (attempt + 1) remaining
        ⟨t.result, t.calls + 1, retryDelays.getD attempt 0 :: t.sleeps⟩
    | .exn e =>
      if remaining = 0 then ⟨.error (.transport e), 1, []⟩
      else
        let t := fetchRetryGo fetcher (attempt + 1) remaining
        ⟨t.result, t.calls + 1, retryDelays.getD attempt 0 :: t.sleeps⟩

/-- `fetchWithRetry(url, maxAttempts = 3)` over an explicit sequence of
per-attempt outcomes. -/
def fetchWithRetry (fetcher : Nat → FetchOutcome) (maxAttempts : Nat := 3) : RetryTrace :=
  fetchRetryGo fetcher 0 maxAttempts

/-! ## The GET handler (`src/app/api/weather/route.ts`) -/

/-- The inbound query string parameters, as returned by `searchParams.get`
(`none` models `null`, `some ""` an empty value). -/
structure Query where
  lat : Option String := none
  lon : Option String := none
  gran : Option String := none
  vars : Option String := none
  start : Option String := none
  end_ : Option String := none

/-- Which zod schema validated the payload. -/
inductive SchemaKind where
  | hourly
  | daily
deriving DecidableEq

/-- Observable outcome of one handler invocation: HTTP status and JSON body,
plus the trace data (fetch calls performed, backoff sleeps, the upstream URL
built, the schema used) that the end-to-end claims quantify over. -/
structure HandlerResult where
  status : Nat
  body : Json
  calls : Nat
  sleeps : List Nat
  url : Option UrlModel := none
  schemaUsed : Option SchemaKind := none

/-- JS truthiness test `!param` on a `searchParams.get` result: `null` and
the empty string are falsy, every other string is truthy. -/
def falsyParam : Option String → Bool
  | none => true
  | some s => s == ""

/-- A `{ error: msg }` response body. -/
def errorBody (msg : String) : Json := .obj [("error", .str msg)]

/-- The catch-all `{ error: 'Failed to fetch weather data', message }` body. -/
def fetchFailBody (msg : String) : Json :=
  .obj [("error", .str "Failed to fetch weather data"), ("message", .str msg)]

/-- The fetch-and-validate tail of the `GET` handler (the source lines from
`const res = await fetchWithRetry(url)` to the final `NextResponse.json`),
as a function of the selected granularity, the built upstream URL, and the
network outcomes.  `GET` delegates here once parameter validation and URL
construction have succeeded. -/
def fetchStage (gran : String) (url : UrlModel) (fetcher : Nat → FetchOutcome) :
    HandlerResult :=
  let tr := fetchWithRetry fetcher 3
  match tr.result with
  | .error re =>
    { status := 502, body := fetchFailBody re.message,
      calls := tr.calls, sleeps := tr.sleeps, url := some url }
  | .ok res =>
    if !res.ok then
      { status := 502, body := errorBody "Upstream error",
        calls := tr.calls, sleeps := tr.sleeps, url := some url }
    else
      let data := res.body
      let parsed :=
        if gran == "hourly" then ZHourly_safeParse data else ZDaily_safeParse data
      let sk := if gran == "hourly" then SchemaKind.hourly else SchemaKind.daily
      match parsed with
      | .error issues =>
        { status := 500,
          body := .obj [("error", .str "Invalid schema"),
                        ("details", issuesToJson issues)],
          calls := tr.calls, sleeps := tr.sleeps, url := some url,
          schemaUsed := some sk }
      | .ok d =>
        { status := 200, body := d,
          calls := tr.calls, sleeps := tr.sleeps, url := some url,
          schemaUsed := some sk }

/-- The `GET` handler of `src/app/api/weather/route.ts`, with the inbound
query already split into parameters and the network supplied as the
per-attempt outcome sequence.  Thrown errors (from `buildUrl` or
`fetchWithRetry`) are caught by the handler's catch-all, which returns 502
`{ error: 'Failed to fetch weather data', message }`. -/
def GET (q : Query) (fetcher : Nat → FetchOutcome) : HandlerResult :=
  let gran := q.gran.getD "hourly"
  if falsyParam q.lat || falsyParam q.lon then
    { status := 400, body := errorBody "Missing required parameters: lat and lon",
      calls := 0, sleeps := [] }
  else
    let lat := jsNumber (q.lat.getD "")
    let lon := jsNumber (q.lon.getD "")
    if lat.isNan || lon.isNan then
      { status := 400, body := errorBody "Invalid coordinates: lat and lon must be numbers",
        calls := 0, sleeps := [] }
    else if !(isValidAU_NZCoords lat lon) then
      { status := 400,
        body := errorBody "Coordinates must be within Australia or New Zealand bounds",
        calls := 0, sleeps := [] }
    else
      let vars := q.vars.map fun s => (s.splitOn ",").filter (fun v => v != "")
      match buildUrl lat lon gran { vars := vars, start := q.start, end_ := q.end_ } with
      | .error e =>
        { status := 502, body := fetchFailBody e, calls := 0, sleeps := [] }
      | .ok url =>
        fetchStage gran url fetcher

/-! ## Spec-side definitions used by the theorems -/

/-- Membership in the closed Australia rectangle, over exact rationals
(spec wording: `[-43.6, -10.7] × [113.3, 153.6]`, boundary-inclusive). -/
def inAustraliaRect (lat lon : ℚ) : Prop :=
  -43.6 ≤ lat ∧ lat ≤ -10.7 ∧ 113.3 ≤ lon ∧ lon ≤ 153.6

/-- Membership in the closed New Zealand rectangle, over exact rationals
(spec wording: `[-47.3, -34.4] × [166.4, 178.6]`, boundary-inclusive). -/
def inNewZealandRect (lat lon : ℚ) : Prop :=
  -47.3 ≤ lat ∧ lat ≤ -34.4 ∧ 166.4 ≤ lon ∧ lon ≤ 178.6

/-- `URLSearchParams.get` on the query-parameter list: first match wins. -/
def getParam : List (String × String) → String → Option String
  | [], _ => none
  | p :: rest, key => if p.1 == key then some p.2 else getParam rest key

/-- The query-parameter list `buildUrl` produces for in-region coordinates,
as an explicit concatenation of its segments. -/
def builtQuery (lat lon : JsNum) (granularity : String) (params : BuildUrlParams) :
    List (String × String) :=
  [("latitude", jsNumToString lat), ("longitude", jsNumToString lon),
   ("timezone", params.tz.getD "auto")] ++
  (if granularity == "hourly" then
    [("hourly", String.intercalate ","
      (params.vars.getD ["temperature_2m", "precipitation", "windspeed_10m"]))]
   else []) ++
  (if granularity == "daily" then
    [("daily", String.intercalate ","
      (params.vars.getD ["temperature_2m_max", "temperature_2m_min", "precipitation_sum",
        "windspeed_10m_max"]))]
   else []) ++
  (match params.start with
   | some s => if s == "" then [] else [("start_date", s)]
   | none => []) ++
  (match params.end_ with
   | some s => if s == "" then [] else [("end_date", s)]
   | none => [])

/-- Classification of one attempt outcome as a failure: a settled response
with non-ok status, or a thrown transport error. -/
def FetchOutcome.isFailure : FetchOutcome → Bool
  | .resp r => !r.ok
  | .exn _ => true

/-- A fetcher whose three attempts all settle with a non-ok 500 response. -/
def nonOkFetcher : Nat → FetchOutcome := fun _ => .resp ⟨false, 500, .null⟩

/-- A fetcher with two transport errors followed by an ok response. -/
def mixedFetcher : Nat → FetchOutcome :=
  fun n => if n < 2 then .exn "network down" else .resp ⟨true, 200, .null⟩

/-- The claim's characterization of schema acceptance (spec-side
definition): the payload is an object whose `key` field is an object whose
`time` field is an array of strings; nothing else is examined. -/
def hasRequiredShape (key : String) (j : Json) : Bool :=
  match j with
  | .obj fields =>
    match fields.lookup key with
    | some (.obj inner) =>
      match inner.lookup "time" with
      | some (.arr ts) => ts.all Json.isStr
      | _ => false
    | _ => false
  | _ => false

/-! ## Concrete inputs used by counterexamples and witnesses -/

/-- The Auckland end-to-end query (`lat=-36.8509&lon=174.7645`). -/
def auckQuery : Query := { lat := some "-36.8509", lon := some "174.7645" }

/-- A fetcher that is never consulted by the fail-fast scenarios. -/
def idleFetcher : Nat → FetchOutcome := fun _ => .exn "unreachable"

/-- A query with non-finite latitude (`lat=Infinity&lon=150`). -/
def infQuery : Query := { lat := some "Infinity", lon := some "150" }

/-- A schema-valid hourly payload with an extra top-level field alongside
`hourly` and an extra field inside it. -/
def extraPayload : Json :=
  .obj [("hourly", .obj [("time", .arr [.str "2025-01-21T00:00"]),
                         ("temperature_2m", .arr [.num ⟨205, 10⟩])]),
        ("elevation", .num ⟨5, 1⟩)]

/-- A fetcher that immediately succeeds with `extraPayload`. -/
def extraFetcher : Nat → FetchOutcome := fun _ => .resp ⟨true, 200, extraPayload⟩

/-- The Auckland query with the unknown granularity value `weekly`. -/
def weeklyQuery : Query :=
  { lat := some "-36.8509", lon := some "174.7645", gran := some "weekly" }

/-- A fetcher that immediately succeeds with a schema-valid daily payload. -/
def dailyFetcher : Nat → FetchOutcome :=
  fun _ => .resp ⟨true, 200, .obj [("daily", .obj [("time", .arr [.str "2025-01-21"])])]⟩

/-! ## Spec-side characterizations and helper lemmas -/

theorem Frac.ble_iff_toRat (a b : Frac) (ha : 0 < a.den) (hb : 0 < b.den) :
    Frac.ble a b = true ↔ a.toRat ≤ b.toRat := by
  have ha' : (0 : ℚ) < (a.den : ℚ) := by exact_mod_cast ha
  have hb' : (0 : ℚ) < (b.den : ℚ) := by exact_mod_cast hb
  rw [Frac.ble, decide_eq_true_eq, Frac.toRat, Frac.toRat, div_le_div_iff₀ ha' hb']
  exact ⟨fun h => by exact_mod_cast h, fun h => by exact_mod_cast h⟩

theorem Frac.ble_mk_left (m : Int) (d : Nat) (hd : 0 < d) (g : Frac) (hg : 0 < g.den) :
    (Frac.ble ⟨m, d⟩ g = true) ↔ (m : ℚ) / (d : ℚ) ≤ g.toRat :=
  Frac.ble_iff_toRat ⟨m, d⟩ g hd hg

theorem Frac.ble_mk_right (m : Int) (d : Nat) (hd : 0 < d) (g : Frac) (hg : 0 < g.den) :
    (Frac.ble g ⟨m, d⟩ = true) ↔ g.toRat ≤ (m : ℚ) / (d : ℚ) :=
  Frac.ble_iff_toRat g ⟨m, d⟩ hg hd

/-! ## C4 -/

/-- C4: `isValidAU_NZCoords` returns true on finite coordinates exactly when
the point lies in the closed Australia rectangle or the closed New Zealand
rectangle (boundary-inclusive), and returns false whenever either input is
non-finite (`NaN` or an infinity).  Totality and absence of exceptions hold
by construction: the embedding is a total Lean function. -/
theorem isValidAU_NZCoords_spec :
    (∀ (f g : Frac), 0 < f.den → 0 < g.den →
      (isValidAU_NZCoords (.fin f) (.fin g) = true ↔
        (inAustraliaRect f.toRat g.toRat ∨ inNewZealandRect f.toRat g.toRat))) ∧
    (∀ lat lon : JsNum, lat.isFinite = false ∨ lon.isFinite = false →
      isValidAU_NZCoords lat lon = false) := by
  constructor
  · intro f g hf hg
    rw [show isValidAU_NZCoords (.fin f) (.fin g) =
        ((Frac.ble ⟨-436, 10⟩ f && Frac.ble f ⟨-107, 10⟩ &&
          Frac.ble ⟨1133, 10⟩ g && Frac.ble g ⟨1536, 10⟩) ||
         (Frac.ble ⟨-473, 10⟩ f && Frac.ble f ⟨-344, 10⟩ &&
          Frac.ble ⟨1664, 10⟩ g && Frac.ble g ⟨1786, 10⟩)) from rfl]
    simp only [Bool.or_eq_true, Bool.and_eq_true]
    rw [Frac.ble_mk_left (-436) 10 (by norm_num) f hf,
        Frac.ble_mk_right (-107) 10 (by norm_num) f hf,
        Frac.ble_mk_left 1133 10 (by norm_num) g hg,
        Frac.ble_mk_right 1536 10 (by norm_num) g hg,
        Frac.ble_mk_left (-473) 10 (by norm_num) f hf,
        Frac.ble_mk_right (-344) 10 (by norm_num) f hf,
        Frac.ble_mk_left 1664 10 (by norm_num) g hg,
        Frac.ble_mk_right 1786 10 (by norm_num) g hg]
    unfold inAustraliaRect inNewZealandRect
    norm_num [and_assoc]
  · intro lat lon h
    cases lat <;> cases lon <;>
      simp_all [isValidAU_NZCoords, JsNum.ge, JsNum.le, JsNum.isFinite]

/-- Witness for `isValidAU_NZCoords_spec`: Auckland's coordinates are
accepted (they lie in the New Zealand rectangle), and `NaN` latitude is
rejected. -/
theorem isValidAU_NZCoords_spec_witness :
    isValidAU_NZCoords (.fin ⟨-368509, 10000⟩) (.fin ⟨1747645, 10000⟩) = true ∧
    isValidAU_NZCoords .nan (.fin ⟨1747645, 10000⟩) = false := by
  constructor
  · exact (isValidAU_NZCoords_spec.1 ⟨-368509, 10000⟩ ⟨1747645, 10000⟩ (by norm_num)
      (by norm_num)).mpr (Or.inr (by norm_num [inNewZealandRect, Frac.toRat]))
  · exact isValidAU_NZCoords_spec.2 .nan (.fin ⟨1747645, 10000⟩) (Or.inl rfl)

/-! ## C5 -/

/-- C5: for every coordinate pair rejected by the region check, every
granularity and every options value, `buildUrl` fails with the region-bounds
error (it never constructs or returns a URL: the result is `Except.error`,
not `Except.ok`). -/
theorem buildUrl_rejects_out_of_region (lat lon : JsNum) (granularity : String)
    (params : BuildUrlParams) (h : isValidAU_NZCoords lat lon = false) :
    buildUrl lat lon granularity params =
      .error "Coordinates must be within Australia or New Zealand bounds" := by
  unfold buildUrl
  rw [h]
  rfl

/-- Witness for `buildUrl_rejects_out_of_region` at `(0, 0)` (outside both
regions) with granularity `hourly` and empty options. -/
theorem buildUrl_rejects_out_of_region_witness :
    isValidAU_NZCoords (.fin 0) (.fin 0) = false ∧
    buildUrl (.fin 0) (.fin 0) "hourly" {} =
      .error "Coordinates must be within Australia or New Zealand bounds" :=
  ⟨by decide, buildUrl_rejects_out_of_region _ _ _ _ (by decide)⟩

/-! ## The query list produced by `buildUrl` -/

theorem getParam_append (l₁ l₂ : List (String × String)) (k : String) :
    getParam (l₁ ++ l₂) k =
      match getParam l₁ k with
      | some v => some v
      | none => getParam l₂ k := by
  induction l₁ with
  | nil => simp [getParam]
  | cons p l ih =>
    by_cases h : p.1 == k
    · simp [getParam, h]
    · simp [getParam, h, ih]

set_option maxHeartbeats 1000000 in
theorem buildUrl_ok (lat lon : JsNum) (granularity : String) (params : BuildUrlParams)
    (h : isValidAU_NZCoords lat lon = true) :
    buildUrl lat lon granularity params = .ok ⟨BASE, builtQuery lat lon granularity params⟩ := by
  obtain ⟨start, end_, tz, vars⟩ := params
  unfold buildUrl builtQuery
  rw [h]
  rcases Bool.eq_false_or_eq_true (granularity == "hourly") with hg | hg <;>
    rcases Bool.eq_false_or_eq_true (granularity == "daily") with hd | hd <;>
      cases start <;> cases end_ <;>
        simp [hg, hd, setParam] <;> split_ifs <;> simp_all

theorem getParam_builtQuery_start (lat lon : JsNum) (granularity : String)
    (params : BuildUrlParams) :
    getParam (builtQuery lat lon granularity params) "start_date" =
      (match params.start with
       | some s => if s == "" then none else some s
       | none => none) := by
  obtain ⟨start, end_, tz, vars⟩ := params
  unfold builtQuery
  cases start <;> cases end_ <;> simp [getParam_append, getParam] <;> split_ifs <;>
    simp [getParam]

theorem getParam_builtQuery_end (lat lon : JsNum) (granularity : String)
    (params : BuildUrlParams) :
    getParam (builtQuery lat lon granularity params) "end_date" =
      (match params.end_ with
       | some s => if s == "" then none else some s
       | none => none) := by
  obtain ⟨start, end_, tz, vars⟩ := params
  unfold builtQuery
  cases start <;> cases end_ <;> simp [getParam_append, getParam] <;> split_ifs <;>
    simp [getParam]

theorem getParam_builtQuery_hourly (lat lon : JsNum) (params : BuildUrlParams) :
    getParam (builtQuery lat lon "hourly" params) "hourly" =
      some (String.intercalate ","
        (params.vars.getD ["temperature_2m", "precipitation", "windspeed_10m"])) := by
  unfold builtQuery
  simp [getParam_append, getParam]

theorem getParam_builtQuery_daily (lat lon : JsNum) (params : BuildUrlParams) :
    getParam (builtQuery lat lon "daily" params) "daily" =
      some (String.intercalate ","
        (params.vars.getD ["temperature_2m_max", "temperature_2m_min", "precipitation_sum",
          "windspeed_10m_max"])) := by
  unfold builtQuery
  simp [getParam_append, getParam]

theorem getParam_builtQuery_not_hourly (lat lon : JsNum) (granularity : String)
    (params : BuildUrlParams) (hg : (granularity == "hourly") = false) :
    getParam (builtQuery lat lon granularity params) "hourly" = none := by
  obtain ⟨start, end_, tz, vars⟩ := params
  unfold builtQuery
  cases start <;> cases end_ <;> simp [getParam_append, getParam, hg] <;> split_ifs <;>
    simp [getParam]

theorem getParam_builtQuery_not_daily (lat lon : JsNum) (granularity : String)
    (params : BuildUrlParams) (hg : (granularity == "daily") = false) :
    getParam (builtQuery lat lon granularity params) "daily" = none := by
  obtain ⟨start, end_, tz, vars⟩ := params
  unfold builtQuery
  cases start <;> cases end_ <;> simp [getParam_append, getParam, hg] <;> split_ifs <;>
    simp [getParam]

/-! ## C7 -/

/-- C7: for in-region coordinates `buildUrl` (a pure Lean function, hence
deterministic) sets the granularity-named query parameter to the comma-joined
default variable list when `vars` is omitted, to the empty string when
`vars = []` (parameter present, not omitted, no error), and the
`start_date` / `end_date` parameters appear in the URL exactly when a truthy
(non-empty) `start` / `end` option is supplied. -/
theorem buildUrl_variables_and_dates (lat lon : JsNum)
    (h : isValidAU_NZCoords lat lon = true) :
    (∀ start end_ tz, ∃ u, buildUrl lat lon "hourly" ⟨start, end_, tz, none⟩ = .ok u ∧
       getParam u.query "hourly" = some "temperature_2m,precipitation,windspeed_10m") ∧
    (∀ start end_ tz, ∃ u, buildUrl lat lon "daily" ⟨start, end_, tz, none⟩ = .ok u ∧
       getParam u.query "daily" =
         some "temperature_2m_max,temperature_2m_min,precipitation_sum,windspeed_10m_max") ∧
    (∀ start end_ tz, ∃ u, buildUrl lat lon "hourly" ⟨start, end_, tz, some []⟩ = .ok u ∧
       getParam u.query "hourly" = some "") ∧
    (∀ start end_ tz, ∃ u, buildUrl lat lon "daily" ⟨start, end_, tz, some []⟩ = .ok u ∧
       getParam u.query "daily" = some "") ∧
    (∀ granularity params u, buildUrl lat lon granularity params = .ok u →
      (getParam u.query "start_date" ≠ none ↔ ∃ s, params.start = some s ∧ s ≠ "") ∧
      (getParam u.query "end_date" ≠ none ↔ ∃ s, params.end_ = some s ∧ s ≠ "")) := by
  refine ⟨?_, ?_, ?_, ?_, ?_⟩
  · intro start end_ tz
    exact ⟨_, buildUrl_ok lat lon "hourly" ⟨start, end_, tz, none⟩ h,
      by rw [getParam_builtQuery_hourly]; rfl⟩
  · intro start end_ tz
    exact ⟨_, buildUrl_ok lat lon "daily" ⟨start, end_, tz, none⟩ h,
      by rw [getParam_builtQuery_daily]; rfl⟩
  · intro start end_ tz
    exact ⟨_, buildUrl_ok lat lon "hourly" ⟨start, end_, tz, some []⟩ h,
      by rw [getParam_builtQuery_hourly]; rfl⟩
  · intro start end_ tz
    exact ⟨_, buildUrl_ok lat lon "daily" ⟨start, end_, tz, some []⟩ h,
      by rw [getParam_builtQuery_daily]; rfl⟩
  · intro granularity params u hu
    rw [buildUrl_ok lat lon granularity params h] at hu
    injection hu with hu
    subst hu
    constructor
    · rw [getParam_builtQuery_start]
      obtain ⟨start, end_, tz, vars⟩ := params
      cases start with
      | none => simp
      | some s =>
        by_cases hs : s == ""
        · simp_all
        · simp_all
    · rw [getParam_builtQuery_end]
      obtain ⟨start, end_, tz, vars⟩ := params
      cases end_ with
      | none => simp
      | some s =>
        by_cases hs : s == ""
        · simp_all
        · simp_all

/-- Witness for `buildUrl_variables_and_dates` at Auckland: default hourly
variable list, empty-list behaviour, and date-parameter presence at a
concrete options value. -/
theorem buildUrl_variables_and_dates_witness :
    ∃ u, buildUrl (.fin ⟨-368509, 10000⟩) (.fin ⟨1747645, 10000⟩) "hourly"
        ⟨some "2025-01-01", none, none, none⟩ = .ok u ∧
      getParam u.query "hourly" = some "temperature_2m,precipitation,windspeed_10m" := by
  obtain ⟨hH, _, _, _, _⟩ :=
    buildUrl_variables_and_dates (.fin ⟨-368509, 10000⟩) (.fin ⟨1747645, 10000⟩) (by decide)
  exact hH (some "2025-01-01") none none

/-! ## Retry lemmas -/

theorem fetchRetryGo_failure_step (fetcher : Nat → FetchOutcome) (attempt n : Nat)
    (hn : n ≠ 0) (hfail : (fetcher attempt).isFailure = true) :
    fetchRetryGo fetcher attempt (n + 1) =
      ⟨(fetchRetryGo fetcher (attempt + 1) n).result,
       (fetchRetryGo fetcher (attempt + 1) n).calls + 1,
       retryDelays.getD attempt 0 :: (fetchRetryGo fetcher (attempt + 1) n).sleeps⟩ := by
  cases hfo : fetcher attempt with
  | resp r =>
    have hr : r.ok = false := by
      rw [hfo] at hfail
      simpa [FetchOutcome.isFailure] using hfail
    simp [fetchRetryGo, hfo, hr, hn]
  | exn e =>
    simp [fetchRetryGo, hfo, hn]

theorem fetchRetryGo_last_resp (fetcher : Nat → FetchOutcome) (attempt : Nat)
    (r : UpstreamResponse) (hfo : fetcher attempt = .resp r) (hr : r.ok = false) :
    fetchRetryGo fetcher attempt 1 = ⟨.error .allFailed, 1, []⟩ := by
  simp [fetchRetryGo, hfo, hr]

theorem fetchRetryGo_last_exn (fetcher : Nat → FetchOutcome) (attempt : Nat)
    (e : String) (hfo : fetcher attempt = .exn e) :
    fetchRetryGo fetcher attempt 1 = ⟨.error (.transport e), 1, []⟩ := by
  simp [fetchRetryGo, hfo]

theorem fetchRetryGo_first_ok (fetcher : Nat → FetchOutcome) (attempt n : Nat)
    (r : UpstreamResponse) (hfo : fetcher attempt = .resp r) (hr : r.ok = true) :
    fetchRetryGo fetcher attempt (n + 1) = ⟨.ok r, 1, []⟩ := by
  simp [fetchRetryGo, hfo, hr]

theorem fetchRetryGo_ok_result (fetcher : Nat → FetchOutcome) :
    ∀ (n attempt : Nat) (r : UpstreamResponse),
      (fetchRetryGo fetcher attempt n).result = .ok r → r.ok = true := by
  intro n
  induction n with
  | zero =>
    intro attempt r h
    simp [fetchRetryGo] at h
  | succ n ih =>
    intro attempt r h
    rcases hn : n with _ | m
    · subst hn
      cases hfo : fetcher attempt with
      | resp r0 =>
        cases hr0 : r0.ok with
        | true =>
          rw [fetchRetryGo_first_ok fetcher attempt 0 r0 hfo hr0] at h
          simp only [Except.ok.injEq] at h
          rw [← h]
          exact hr0
        | false =>
          rw [fetchRetryGo_last_resp fetcher attempt r0 hfo hr0] at h
          simp at h
      | exn e =>
        rw [fetchRetryGo_last_exn fetcher attempt e hfo] at h
        simp at h
    · subst hn
      cases hfo : fetcher attempt with
      | resp r0 =>
        cases hr0 : r0.ok with
        | true =>
          rw [fetchRetryGo_first_ok fetcher attempt (m + 1) r0 hfo hr0] at h
          simp only [Except.ok.injEq] at h
          rw [← h]
          exact hr0
        | false =>
          have hfail : (fetcher attempt).isFailure = true := by
            simp [FetchOutcome.isFailure, hfo, hr0]
          rw [fetchRetryGo_failure_step fetcher attempt (m + 1) (by simp) hfail] at h
          exact ih (attempt + 1) r h
      | exn e =>
        have hfail : (fetcher attempt).isFailure = true := by
          simp [FetchOutcome.isFailure, hfo]
        rw [fetchRetryGo_failure_step fetcher attempt (m + 1) (by simp) hfail] at h
        exact ih (attempt + 1) r h

theorem fetchWithRetry_two_failures_then_ok (fetcher : Nat → FetchOutcome)
    (r : UpstreamResponse) (h0 : (fetcher 0).isFailure = true)
    (h1 : (fetcher 1).isFailure = true) (h2 : fetcher 2 = .resp r) (hr : r.ok = true) :
    fetchWithRetry fetcher 3 = ⟨.ok r, 3, [1000, 2000]⟩ := by
  have e0 : fetchRetryGo fetcher 0 3 =
      ⟨(fetchRetryGo fetcher 1 2).result, (fetchRetryGo fetcher 1 2).calls + 1,
       retryDelays.getD 0 0 :: (fetchRetryGo fetcher 1 2).sleeps⟩ :=
    fetchRetryGo_failure_step fetcher 0 2 (by decide) h0
  have e1 : fetchRetryGo fetcher 1 2 =
      ⟨(fetchRetryGo fetcher 2 1).result, (fetchRetryGo fetcher 2 1).calls + 1,
       retryDelays.getD 1 0 :: (fetchRetryGo fetcher 2 1).sleeps⟩ :=
    fetchRetryGo_failure_step fetcher 1 1 (by decide) h1
  have e2 : fetchRetryGo fetcher 2 1 = ⟨.ok r, 1, []⟩ :=
    fetchRetryGo_first_ok fetcher 2 0 r h2 hr
  show fetchRetryGo fetcher 0 3 = _
  rw [e0, e1, e2]
  simp [retryDelays]

theorem fetchWithRetry_three_failures (fetcher : Nat → FetchOutcome)
    (h0 : (fetcher 0).isFailure = true) (h1 : (fetcher 1).isFailure = true)
    (h2 : (fetcher 2).isFailure = true) :
    (fetchWithRetry fetcher 3).calls = 3 ∧
    (fetchWithRetry fetcher 3).sleeps = [1000, 2000] ∧
    (∀ r, fetcher 2 = .resp r → (fetchWithRetry fetcher 3).result = .error .allFailed) ∧
    (∀ e, fetcher 2 = .exn e → (fetchWithRetry fetcher 3).result = .error (.transport e)) := by
  have e0 : fetchRetryGo fetcher 0 3 =
      ⟨(fetchRetryGo fetcher 1 2).result, (fetchRetryGo fetcher 1 2).calls + 1,
       retryDelays.getD 0 0 :: (fetchRetryGo fetcher 1 2).sleeps⟩ :=
    fetchRetryGo_failure_step fetcher 0 2 (by decide) h0
  have e1 : fetchRetryGo fetcher 1 2 =
      ⟨(fetchRetryGo fetcher 2 1).result, (fetchRetryGo fetcher 2 1).calls + 1,
       retryDelays.getD 1 0 :: (fetchRetryGo fetcher 2 1).sleeps⟩ :=
    fetchRetryGo_failure_step fetcher 1 1 (by decide) h1
  cases hfo : fetcher 2 with
  | resp r =>
    have hr : r.ok = false := by
      rw [hfo] at h2
      simpa [FetchOutcome.isFailure] using h2
    have E : fetchWithRetry fetcher 3 = ⟨.error .allFailed, 3, [1000, 2000]⟩ := by
      show fetchRetryGo fetcher 0 3 = _
      rw [e0, e1, fetchRetryGo_last_resp fetcher 2 r hfo hr]
      simp [retryDelays]
    rw [E]
    refine ⟨rfl, rfl, fun r' _ => rfl, fun e he => ?_⟩
    simp at he
  | exn e =>
    have E : fetchWithRetry fetcher 3 = ⟨.error (.transport e), 3, [1000, 2000]⟩ := by
      show fetchRetryGo fetcher 0 3 = _
      rw [e0, e1, fetchRetryGo_last_exn fetcher 2 e hfo]
      simp [retryDelays]
    rw [E]
    refine ⟨rfl, rfl, fun r' hr' => ?_, fun e' he' => ?_⟩
    · simp at hr'
    · simp only [FetchOutcome.exn.injEq] at he'
      rw [he']

/-! ## C3 -/

/-- C3: `fetchWithRetry` with `maxAttempts = 3` returns the first response
classified ok.  Against two failures followed by an ok response it performs
exactly 3 attempts and returns the success; against three consecutive
failures it performs exactly 3 attempts and fails, with the aggregate
`Error('All retry attempts failed')` when the final attempt settled non-ok,
and with the final transport error surfaced when the final attempt threw.
The recorded sleeps `[1000, 2000]` are exactly the delays `1000 * 2 ^ k`
between attempt `k` and `k + 1` for `k < 2`, and no delay follows the final
attempt. -/
theorem fetchWithRetry_spec (fetcher : Nat → FetchOutcome) :
    (∀ r : UpstreamResponse, (fetcher 0).isFailure = true →
      (fetcher 1).isFailure = true → fetcher 2 = .resp r → r.ok = true →
      fetchWithRetry fetcher 3 = ⟨.ok r, 3, [1000, 2000]⟩) ∧
    ((fetcher 0).isFailure = true → (fetcher 1).isFailure = true →
      (fetcher 2).isFailure = true →
      (fetchWithRetry fetcher 3).calls = 3 ∧
      (fetchWithRetry fetcher 3).sleeps = [1000, 2000] ∧
      (∀ r, fetcher 2 = .resp r → (fetchWithRetry fetcher 3).result = .error .allFailed) ∧
      (∀ e, fetcher 2 = .exn e →
        (fetchWithRetry fetcher 3).result = .error (.transport e))) := by
  constructor
  · intro r h0 h1 h2 hr
    exact fetchWithRetry_two_failures_then_ok fetcher r h0 h1 h2 hr
  · intro h0 h1 h2
    exact fetchWithRetry_three_failures fetcher h0 h1 h2

/-- Witness for `fetchWithRetry_spec`: two transport errors then a success
returns the success after 3 calls and sleeps `[1000, 2000]`; three non-ok
responses make 3 calls and fail with the aggregate error. -/
theorem fetchWithRetry_spec_witness :
    fetchWithRetry mixedFetcher 3 = ⟨.ok ⟨true, 200, .null⟩, 3, [1000, 2000]⟩ ∧
    (fetchWithRetry nonOkFetcher 3).calls = 3 ∧
    (fetchWithRetry nonOkFetcher 3).result = .error .allFailed := by
  refine ⟨(fetchWithRetry_spec mixedFetcher).1 ⟨true, 200, .null⟩ rfl rfl rfl rfl, ?_, ?_⟩
  · exact ((fetchWithRetry_spec nonOkFetcher).2 rfl rfl rfl).1
  · exact ((fetchWithRetry_spec nonOkFetcher).2 rfl rfl rfl).2.2.1 ⟨false, 500, .null⟩ rfl

/-! ## Schema lemmas -/

theorem checkStringElems_nil_iff (p : List PathItem) :
    ∀ (ts : List Json) (i : Nat),
      checkStringElems p i ts = [] ↔ ts.all Json.isStr = true := by
  intro ts
  induction ts with
  | nil =>
    intro i
    simp [checkStringElems]
  | cons x xs ih =>
    intro i
    cases x <;> simp [checkStringElems, Json.isStr, ih (i + 1)]

theorem safeParseShape_ok_of_shape (key : String) (fields inner : List (String × Json))
    (ts : List Json) (hk : fields.lookup key = some (.obj inner))
    (ht : inner.lookup "time" = some (.arr ts)) (hts : ts.all Json.isStr = true) :
    safeParseShape key (.obj fields) = .ok (.obj [(key, .obj inner)]) := by
  have hnil : checkStringElems [.key key, .key "time"] 0 ts = [] :=
    (checkStringElems_nil_iff [.key key, .key "time"] ts 0).mpr hts
  simp [safeParseShape, parseInnerObject, parseTimeArray, hk, ht, hnil]

theorem safeParseShape_cases (key : String) (j : Json) :
    (∃ fields inner, j = .obj fields ∧ fields.lookup key = some (.obj inner) ∧
      hasRequiredShape key j = true ∧
      safeParseShape key j = .ok (.obj [(key, .obj inner)])) ∨
    (hasRequiredShape key j = false ∧
      ∃ e es, safeParseShape key j = .error (e :: es)) := by
  cases j with
  | null => exact Or.inr ⟨rfl, _, _, rfl⟩
  | bool b => exact Or.inr ⟨rfl, _, _, rfl⟩
  | num q => exact Or.inr ⟨rfl, _, _, rfl⟩
  | str s => exact Or.inr ⟨rfl, _, _, rfl⟩
  | arr xs => exact Or.inr ⟨rfl, _, _, rfl⟩
  | obj fields =>
    cases hfield : fields.lookup key with
    | none =>
      refine Or.inr ⟨?_, ⟨[.key key], "Required"⟩, [], ?_⟩
      · simp [hasRequiredShape, hfield]
      · simp [safeParseShape, hfield]
    | some t =>
      cases t with
      | null =>
        refine Or.inr ⟨?_, ⟨[.key key], "Expected object, received " ++ Json.typeName .null⟩,
          [], ?_⟩
        · simp [hasRequiredShape, hfield]
        · simp [safeParseShape, parseInnerObject, hfield]
      | bool b =>
        refine Or.inr ⟨?_, ⟨[.key key], "Expected object, received " ++ Json.typeName (.bool b)⟩,
          [], ?_⟩
        · simp [hasRequiredShape, hfield]
        · simp [safeParseShape, parseInnerObject, hfield]
      | num q =>
        refine Or.inr ⟨?_, ⟨[.key key], "Expected object, received " ++ Json.typeName (.num q)⟩,
          [], ?_⟩
        · simp [hasRequiredShape, hfield]
        · simp [safeParseShape, parseInnerObject, hfield]
      | str s =>
        refine Or.inr ⟨?_, ⟨[.key key], "Expected object, received " ++ Json.typeName (.str s)⟩,
          [], ?_⟩
        · simp [hasRequiredShape, hfield]
        · simp [safeParseShape, parseInnerObject, hfield]
      | arr xs =>
        refine Or.inr ⟨?_, ⟨[.key key], "Expected object, received " ++ Json.typeName (.arr xs)⟩,
          [], ?_⟩
        · simp [hasRequiredShape, hfield]
        · simp [safeParseShape, parseInnerObject, hfield]
      | obj inner =>
        cases ht : inner.lookup "time" with
        | none =>
          refine Or.inr ⟨?_, ⟨[.key key, .key "time"], "Required"⟩, [], ?_⟩
          · simp [hasRequiredShape, hfield, ht]
          · simp [safeParseShape, parseInnerObject, hfield, ht]
        | some t2 =>
          cases t2 with
          | arr ts =>
            cases hnil : checkStringElems [.key key, .key "time"] 0 ts with
            | nil =>
              have hall : ts.all Json.isStr = true :=
                (checkStringElems_nil_iff _ ts 0).mp hnil
              refine Or.inl ⟨fields, inner, rfl, hfield, ?_, ?_⟩
              · simp [hasRequiredShape, hfield, ht, hall]
              · simp [safeParseShape, parseInnerObject, parseTimeArray, hfield, ht, hnil]
            | cons e es =>
              refine Or.inr ⟨?_, e, es, ?_⟩
              · cases hall : ts.all Json.isStr with
                | false => simp [hasRequiredShape, hfield, ht, hall]
                | true =>
                  rw [(checkStringElems_nil_iff _ ts 0).mpr hall] at hnil
                  cases hnil
              · simp [safeParseShape, parseInnerObject, parseTimeArray, hfield, ht, hnil]
          | null =>
            refine Or.inr ⟨?_, ⟨[.key key, .key "time"],
              "Expected array, received " ++ Json.typeName .null⟩, [], ?_⟩
            · simp [hasRequiredShape, hfield, ht]
            · simp [safeParseShape, parseInnerObject, parseTimeArray, hfield, ht]
          | bool b =>
            refine Or.inr ⟨?_, ⟨[.key key, .key "time"],
              "Expected array, received " ++ Json.typeName (.bool b)⟩, [], ?_⟩
            · simp [hasRequiredShape, hfield, ht]
            · simp [safeParseShape, parseInnerObject, parseTimeArray, hfield, ht]
          | num q =>
            refine Or.inr ⟨?_, ⟨[.key key, .key "time"],
              "Expected array, received " ++ Json.typeName (.num q)⟩, [], ?_⟩
            · simp [hasRequiredShape, hfield, ht]
            · simp [safeParseShape, parseInnerObject, parseTimeArray, hfield, ht]
          | str s =>
            refine Or.inr ⟨?_, ⟨[.key key, .key "time"],
              "Expected array, received " ++ Json.typeName (.str s)⟩, [], ?_⟩
            · simp [hasRequiredShape, hfield, ht]
            · simp [safeParseShape, parseInnerObject, parseTimeArray, hfield, ht]
          | obj o =>
            refine Or.inr ⟨?_, ⟨[.key key, .key "time"],
              "Expected array, received " ++ Json.typeName (.obj o)⟩, [], ?_⟩
            · simp [hasRequiredShape, hfield, ht]
            · simp [safeParseShape, parseInnerObject, parseTimeArray, hfield, ht]

theorem safeParseShape_ok_shape (key : String) (j d : Json)
    (h : safeParseShape key j = .ok d) : ∃ inner, d = .obj [(key, inner)] := by
  rcases safeParseShape_cases key j with ⟨fields, inner, _, _, _, he⟩ | ⟨_, e, es, he⟩
  · rw [he] at h
    simp only [Except.ok.injEq] at h
    exact ⟨.obj inner, h.symm⟩
  · rw [he] at h
    simp at h

theorem safeParseShape_ok_iff (key : String) (j : Json) :
    (∃ d, safeParseShape key j = .ok d) ↔ hasRequiredShape key j = true := by
  constructor
  · rintro ⟨d, hd⟩
    rcases safeParseShape_cases key j with ⟨_, _, _, _, hshape, _⟩ | ⟨_, e, es, he⟩
    · exact hshape
    · rw [he] at hd
      simp at hd
  · intro h
    rcases safeParseShape_cases key j with ⟨_, _, _, _, _, he⟩ | ⟨hshape, _, _, _⟩
    · exact ⟨_, he⟩
    · rw [h] at hshape
      cases hshape

theorem safeParseShape_error_ne_nil (key : String) (j : Json)
    (issues : List SchemaIssue) (h : safeParseShape key j = .error issues) :
    issues ≠ [] := by
  rcases safeParseShape_cases key j with ⟨_, _, _, _, _, he⟩ | ⟨_, e, es, he⟩
  · rw [he] at h
    simp at h
  · rw [he] at h
    simp only [Except.error.injEq] at h
    rw [← h]
    simp

/-! ## C8 -/

/-- C8: schema validation succeeds exactly when the payload has a top-level
`hourly` (respectively `daily`) field that is an object whose `time` field
is an array of strings — extra unknown fields at any level never cause
failure (they are simply not examined by the accepted-shape predicate) —
and every failure carries a nonempty list of path+message issues. -/
theorem schema_validation_spec :
    (∀ j : Json, (∃ d, ZHourly_safeParse j = .ok d) ↔ hasRequiredShape "hourly" j = true) ∧
    (∀ j : Json, (∃ d, ZDaily_safeParse j = .ok d) ↔ hasRequiredShape "daily" j = true) ∧
    (∀ (j : Json) (issues : List SchemaIssue),
      ZHourly_safeParse j = .error issues → issues ≠ []) ∧
    (∀ (j : Json) (issues : List SchemaIssue),
      ZDaily_safeParse j = .error issues → issues ≠ []) :=
  ⟨fun j => safeParseShape_ok_iff "hourly" j,
   fun j => safeParseShape_ok_iff "daily" j,
   fun j issues h => safeParseShape_error_ne_nil "hourly" j issues h,
   fun j issues h => safeParseShape_error_ne_nil "daily" j issues h⟩

/-- Witness for `schema_validation_spec`: a payload with extra fields both
inside and alongside `hourly` is accepted; `null` is rejected with a
nonempty issue list. -/
theorem schema_validation_spec_witness :
    (∃ d, ZHourly_safeParse
      (.obj [("hourly", .obj [("time", .arr [.str "2025-01-21T00:00"]),
                              ("temperature_2m", .arr [.num ⟨205, 10⟩])]),
             ("elevation", .num ⟨5, 1⟩)]) = .ok d) ∧
    [(⟨[], "Expected object, received null"⟩ : SchemaIssue)] ≠ [] := by
  constructor
  · exact (schema_validation_spec.1 _).mpr (by decide)
  · exact schema_validation_spec.2.2.1 .null _ rfl

/-! ## Handler lemmas -/

theorem fetchStage_error (gran : String) (url : UrlModel) (fetcher : Nat → FetchOutcome)
    (re : RetryError) (h : (fetchWithRetry fetcher 3).result = .error re) :
    fetchStage gran url fetcher =
      { status := 502, body := fetchFailBody re.message,
        calls := (fetchWithRetry fetcher 3).calls,
        sleeps := (fetchWithRetry fetcher 3).sleeps, url := some url } := by
  unfold fetchStage
  simp [h]

theorem fetchStage_parse_ok (gran : String) (url : UrlModel) (fetcher : Nat → FetchOutcome)
    (res : UpstreamResponse) (d : Json)
    (h : (fetchWithRetry fetcher 3).result = .ok res) (hok : res.ok = true)
    (hp : (if gran == "hourly" then ZHourly_safeParse res.body
           else ZDaily_safeParse res.body) = .ok d) :
    fetchStage gran url fetcher =
      { status := 200, body := d,
        calls := (fetchWithRetry fetcher 3).calls,
        sleeps := (fetchWithRetry fetcher 3).sleeps, url := some url,
        schemaUsed := some (if gran == "hourly" then .hourly else .daily) } := by
  have hp' : (if gran = "hourly" then ZHourly_safeParse res.body
      else ZDaily_safeParse res.body) = .ok d := by simpa using hp
  unfold fetchStage
  simp [h, hok, hp']

theorem fetchStage_parse_error (gran : String) (url : UrlModel)
    (fetcher : Nat → FetchOutcome) (res : UpstreamResponse) (issues : List SchemaIssue)
    (h : (fetchWithRetry fetcher 3).result = .ok res) (hok : res.ok = true)
    (hp : (if gran == "hourly" then ZHourly_safeParse res.body
           else ZDaily_safeParse res.body) = .error issues) :
    fetchStage gran url fetcher =
      { status := 500,
        body := .obj [("error", .str "Invalid schema"), ("details", issuesToJson issues)],
        calls := (fetchWithRetry fetcher 3).calls,
        sleeps := (fetchWithRetry fetcher 3).sleeps, url := some url,
        schemaUsed := some (if gran == "hourly" then .hourly else .daily) } := by
  have hp' : (if gran = "hourly" then ZHourly_safeParse res.body
      else ZDaily_safeParse res.body) = .error issues := by simpa using hp
  unfold fetchStage
  simp [h, hok, hp']

theorem fetchStage_url (gran : String) (url : UrlModel) (fetcher : Nat → FetchOutcome) :
    (fetchStage gran url fetcher).url = some url := by
  unfold fetchStage
  cases htr : (fetchWithRetry fetcher 3).result with
  | error re => simp [htr]
  | ok res =>
    cases hok : res.ok with
    | false => simp [htr, hok]
    | true =>
      simp [htr, hok]
      split <;> rfl

theorem fetchStage_status_ne_400 (gran : String) (url : UrlModel)
    (fetcher : Nat → FetchOutcome) :
    (fetchStage gran url fetcher).status ≠ 400 := by
  unfold fetchStage
  cases htr : (fetchWithRetry fetcher 3).result with
  | error re => simp [htr]
  | ok res =>
    cases hok : res.ok with
    | false => simp [htr, hok]
    | true =>
      simp [htr, hok]
      split <;> simp

theorem fetchStage_schemaUsed (gran : String) (url : UrlModel)
    (fetcher : Nat → FetchOutcome) (res : UpstreamResponse)
    (h : (fetchWithRetry fetcher 3).result = .ok res) (hok : res.ok = true) :
    (fetchStage gran url fetcher).schemaUsed =
      some (if gran == "hourly" then .hourly else .daily) := by
  unfold fetchStage
  simp [h, hok]
  split <;> rfl

/-- Reduction of the handler on a query that passes all three validation
steps: it delegates to the fetch stage with the selected granularity and the
URL built for the parsed coordinates. -/
theorem GET_valid_query (q : Query) (fetcher : Nat → FetchOutcome) (ls los : String)
    (hlat : q.lat = some ls) (hlon : q.lon = some los)
    (hls : ls ≠ "") (hlos : los ≠ "")
    (hnl : (jsNumber ls).isNan = false) (hno : (jsNumber los).isNan = false)
    (hval : isValidAU_NZCoords (jsNumber ls) (jsNumber los) = true) :
    GET q fetcher = fetchStage (q.gran.getD "hourly")
      ⟨BASE, builtQuery (jsNumber ls) (jsNumber los) (q.gran.getD "hourly")
        ⟨q.start, q.end_, none, q.vars.map fun s => (s.splitOn ",").filter (fun v => v != "")⟩⟩
      fetcher := by
  have hbu := buildUrl_ok (jsNumber ls) (jsNumber los) (q.gran.getD "hourly")
    ⟨q.start, q.end_, none, q.vars.map fun s => (s.splitOn ",").filter (fun v => v != "")⟩ hval
  unfold GET
  rw [hlat, hlon]
  simp [falsyParam, hls, hlos, hnl, hno, hval, hbu]

/-! ## C1 -/

/-- C1 (amended): for a valid in-region query, when all 3 upstream attempts
settle with a non-ok status, the handler returns 502 with body
`{error: 'Failed to fetch weather data', message: 'All retry attempts
failed'}` — not `{error: 'Upstream error'}` — and exactly 3 network calls
are made (`fetchWithRetry` throws after exhaustion, so the handler's
catch-all produces the body). -/
theorem GET_all_non_ok_is_fetch_failed (q : Query) (fetcher : Nat → FetchOutcome)
    (ls los : String) (hlat : q.lat = some ls) (hlon : q.lon = some los)
    (hls : ls ≠ "") (hlos : los ≠ "")
    (hnl : (jsNumber ls).isNan = false) (hno : (jsNumber los).isNan = false)
    (hval : isValidAU_NZCoords (jsNumber ls) (jsNumber los) = true)
    (hf : ∀ i, i < 3 → ∃ r, fetcher i = .resp r ∧ r.ok = false) :
    (GET q fetcher).status = 502 ∧ (GET q fetcher).calls = 3 ∧
    (GET q fetcher).body = fetchFailBody "All retry attempts failed" := by
  have hfail : ∀ i, i < 3 → (fetcher i).isFailure = true := by
    intro i hi
    obtain ⟨r, hr, hok⟩ := hf i hi
    simp [FetchOutcome.isFailure, hr, hok]
  obtain ⟨r2, hr2, -⟩ := hf 2 (by norm_num)
  obtain ⟨hcalls, hsleeps, hresp, -⟩ :=
    fetchWithRetry_three_failures fetcher (hfail 0 (by norm_num)) (hfail 1 (by norm_num))
      (hfail 2 (by norm_num))
  have hres : (fetchWithRetry fetcher 3).result = .error .allFailed := hresp r2 hr2
  rw [GET_valid_query q fetcher ls los hlat hlon hls hlos hnl hno hval,
      fetchStage_error _ _ fetcher .allFailed hres]
  exact ⟨rfl, hcalls, rfl⟩

/-- Witness for `GET_all_non_ok_is_fetch_failed` at the Auckland query with
three 500 responses. -/
theorem GET_all_non_ok_is_fetch_failed_witness :
    (GET auckQuery nonOkFetcher).status = 502 ∧
    (GET auckQuery nonOkFetcher).calls = 3 ∧
    (GET auckQuery nonOkFetcher).body = fetchFailBody "All retry attempts failed" :=
  GET_all_non_ok_is_fetch_failed auckQuery nonOkFetcher "-36.8509" "174.7645" rfl rfl
    (by decide) (by decide) (by decide) (by decide) (by decide)
    (fun i _ => ⟨⟨false, 500, .null⟩, rfl, rfl⟩)

/-- Counterexample to C1 as stated: in exactly the claimed scenario the body
is not `{error: 'Upstream error'}`. -/
theorem GET_upstream_error_counterexample :
    (GET auckQuery nonOkFetcher).status = 502 ∧
    (GET auckQuery nonOkFetcher).calls = 3 ∧
    (GET auckQuery nonOkFetcher).body ≠ errorBody "Upstream error" := by
  refine ⟨by decide, by decide, fun h => ?_⟩
  exact absurd (congrArg (Json.beqFuel 5 (errorBody "Upstream error")) h) (by decide)

/-! ## C2 -/

/-- C2 (amended): for a valid query whose upstream payload passes schema
validation, the handler returns 200 with the zod-parsed payload: the object
under the granularity key is passed through verbatim (passthrough), but
unknown fields alongside the top-level `hourly`/`daily` key are stripped by
the outer zod object, so the body is exactly
`{hourly: <inner>}` / `{daily: <inner>}`. -/
theorem GET_success_returns_parsed_payload (q : Query) (fetcher : Nat → FetchOutcome)
    (ls los : String) (hlat : q.lat = some ls) (hlon : q.lon = some los)
    (hls : ls ≠ "") (hlos : los ≠ "")
    (hnl : (jsNumber ls).isNan = false) (hno : (jsNumber los).isNan = false)
    (hval : isValidAU_NZCoords (jsNumber ls) (jsNumber los) = true)
    (r : UpstreamResponse) (hf0 : fetcher 0 = .resp r) (hok : r.ok = true) :
    (q.gran.getD "hourly" = "hourly" →
      ∀ fields inner ts, r.body = .obj fields →
        fields.lookup "hourly" = some (.obj inner) →
        inner.lookup "time" = some (.arr ts) → ts.all Json.isStr = true →
        (GET q fetcher).status = 200 ∧
        (GET q fetcher).body = .obj [("hourly", .obj inner)] ∧
        (GET q fetcher).calls = 1) ∧
    (∀ g, q.gran = some g → g ≠ "hourly" →
      ∀ fields inner ts, r.body = .obj fields →
        fields.lookup "daily" = some (.obj inner) →
        inner.lookup "time" = some (.arr ts) → ts.all Json.isStr = true →
        (GET q fetcher).status = 200 ∧
        (GET q fetcher).body = .obj [("daily", .obj inner)] ∧
        (GET q fetcher).calls = 1) := by
  have htr : fetchWithRetry fetcher 3 = ⟨.ok r, 1, []⟩ :=
    fetchRetryGo_first_ok fetcher 0 2 r hf0 hok
  have hres : (fetchWithRetry fetcher 3).result = .ok r := by rw [htr]
  have hred := GET_valid_query q fetcher ls los hlat hlon hls hlos hnl hno hval
  constructor
  · intro hg fields inner ts hbody hk ht hts
    have hp : (if q.gran.getD "hourly" == "hourly" then ZHourly_safeParse r.body
        else ZDaily_safeParse r.body) = .ok (.obj [("hourly", .obj inner)]) := by
      rw [hg, hbody]
      simpa [ZHourly_safeParse] using
        safeParseShape_ok_of_shape "hourly" fields inner ts hk ht hts
    rw [hred, fetchStage_parse_ok _ _ fetcher r _ hres hok hp]
    refine ⟨rfl, rfl, ?_⟩
    show (fetchWithRetry fetcher 3).calls = 1
    rw [htr]
  · intro g hg hgh fields inner ts hbody hk ht hts
    have hgran : q.gran.getD "hourly" = g := by rw [hg]; rfl
    have hbeq : (g == "hourly") = false := beq_eq_false_iff_ne.mpr hgh
    have hp : (if q.gran.getD "hourly" == "hourly" then ZHourly_safeParse r.body
        else ZDaily_safeParse r.body) = .ok (.obj [("daily", .obj inner)]) := by
      rw [hgran, hbody]
      simpa [hbeq, ZDaily_safeParse] using
        safeParseShape_ok_of_shape "daily" fields inner ts hk ht hts
    rw [hred, fetchStage_parse_ok _ _ fetcher r _ hres hok hp]
    refine ⟨rfl, rfl, ?_⟩
    show (fetchWithRetry fetcher 3).calls = 1
    rw [htr]

/-- Witness for `GET_success_returns_parsed_payload` at the Auckland query
with the `extraPayload` upstream response. -/
theorem GET_success_returns_parsed_payload_witness :
    (GET auckQuery extraFetcher).status = 200 ∧
    (GET auckQuery extraFetcher).body =
      .obj [("hourly", .obj [("time", .arr [.str "2025-01-21T00:00"]),
                             ("temperature_2m", .arr [.num ⟨205, 10⟩])])] ∧
    (GET auckQuery extraFetcher).calls = 1 :=
  (GET_success_returns_parsed_payload auckQuery extraFetcher "-36.8509" "174.7645"
      rfl rfl (by decide) (by decide) (by decide) (by decide) (by decide)
      ⟨true, 200, extraPayload⟩ rfl rfl).1 rfl _ _ _ rfl rfl rfl (by decide)

/-- Counterexample to C2 as stated: a payload with an extra top-level field
alongside `hourly` passes validation, yet the 200 body is not structurally
equal to the upstream payload (the extra top-level field is stripped). -/
theorem GET_verbatim_counterexample :
    (GET auckQuery extraFetcher).status = 200 ∧
    (GET auckQuery extraFetcher).body ≠ extraPayload := by
  refine ⟨by decide, fun h => ?_⟩
  exact absurd (congrArg (Json.beqFuel 6 extraPayload) h) (by decide)

/-! ## C6 -/

/-- C6 (amended): every query-validation failure is rejected with 400
immediately and no network fetch is attempted (`calls = 0`): missing
(absent or empty) `lat`/`lon` gives the missing-parameters message;
`lat`/`lon` parsing to `NaN` gives the invalid-coordinates message; finite
or infinite coordinates failing the region check give the region-bounds
message.  (The original claim routed every non-finite value to the
invalid-coordinates message; the code's `isNaN` check routes `±Infinity`
to the region-bounds branch instead — see the counterexample.) -/
theorem GET_validation_fail_fast (q : Query) (fetcher : Nat → FetchOutcome) :
    ((falsyParam q.lat || falsyParam q.lon) = true →
      GET q fetcher =
        ⟨400, errorBody "Missing required parameters: lat and lon", 0, [], none, none⟩) ∧
    (∀ ls los, q.lat = some ls → q.lon = some los → ls ≠ "" → los ≠ "" →
      ((jsNumber ls).isNan || (jsNumber los).isNan) = true →
      GET q fetcher =
        ⟨400, errorBody "Invalid coordinates: lat and lon must be numbers", 0, [],
          none, none⟩) ∧
    (∀ ls los, q.lat = some ls → q.lon = some los → ls ≠ "" → los ≠ "" →
      (jsNumber ls).isNan = false → (jsNumber los).isNan = false →
      isValidAU_NZCoords (jsNumber ls) (jsNumber los) = false →
      GET q fetcher =
        ⟨400, errorBody "Coordinates must be within Australia or New Zealand bounds",
          0, [], none, none⟩) := by
  refine ⟨?_, ?_, ?_⟩
  · intro h
    unfold GET
    rw [h]
    rfl
  · intro ls los hlat hlon hls hlos hnan
    unfold GET
    rw [hlat, hlon]
    simp [falsyParam, hls, hlos, hnan]
  · intro ls los hlat hlon hls hlos hnl hno hval
    unfold GET
    rw [hlat, hlon]
    simp [falsyParam, hls, hlos, hnl, hno, hval]

/-- Witness for `GET_validation_fail_fast`: the out-of-region query
`lat=0&lon=0` is rejected with the region-bounds message and zero fetches. -/
theorem GET_validation_fail_fast_witness :
    GET { lat := some "0", lon := some "0" } idleFetcher =
      ⟨400, errorBody "Coordinates must be within Australia or New Zealand bounds",
        0, [], none, none⟩ :=
  (GET_validation_fail_fast { lat := some "0", lon := some "0" } idleFetcher).2.2
    "0" "0" rfl rfl (by decide) (by decide) (by decide) (by decide) (by decide)

/-- Counterexample to C6 as stated: `lat=Infinity` is not a finite number,
yet the handler's `isNaN` check lets it through to the region check, so the
400 body carries the region-bounds message, not the claimed
invalid-coordinates message (no fetch is attempted either way). -/
theorem GET_infinity_counterexample :
    (GET infQuery idleFetcher).status = 400 ∧
    (GET infQuery idleFetcher).calls = 0 ∧
    (GET infQuery idleFetcher).body =
      errorBody "Coordinates must be within Australia or New Zealand bounds" ∧
    (GET infQuery idleFetcher).body ≠
      errorBody "Invalid coordinates: lat and lon must be numbers" := by
  refine ⟨by decide, by decide, rfl, fun h => ?_⟩
  exact absurd
    (congrArg (Json.beqFuel 5 (errorBody "Invalid coordinates: lat and lon must be numbers")) h)
    (by decide)

/-! ## C9 -/

theorem fetchStage_body_cases (gran : String) (url : UrlModel)
    (fetcher : Nat → FetchOutcome) :
    (∃ m, (fetchStage gran url fetcher).body = fetchFailBody m) ∨
    (∃ issues, (fetchStage gran url fetcher).body =
      .obj [("error", .str "Invalid schema"), ("details", issuesToJson issues)]) ∨
    (∃ key inner, (key = "hourly" ∨ key = "daily") ∧
      (fetchStage gran url fetcher).body = .obj [(key, inner)]) := by
  cases htr : (fetchWithRetry fetcher 3).result with
  | error re =>
    rw [fetchStage_error gran url fetcher re htr]
    exact Or.inl ⟨re.message, rfl⟩
  | ok res =>
    have hok : res.ok = true := fetchRetryGo_ok_result fetcher 3 0 res htr
    cases hp : (if gran == "hourly" then ZHourly_safeParse res.body
        else ZDaily_safeParse res.body) with
    | error issues =>
      rw [fetchStage_parse_error gran url fetcher res issues htr hok hp]
      exact Or.inr (Or.inl ⟨issues, rfl⟩)
    | ok d =>
      rw [fetchStage_parse_ok gran url fetcher res d htr hok hp]
      rcases Bool.eq_false_or_eq_true (gran == "hourly") with hg | hg
      · have hd : ZHourly_safeParse res.body = .ok d := by simpa [hg] using hp
        obtain ⟨inner, hinner⟩ := safeParseShape_ok_shape "hourly" res.body d hd
        exact Or.inr (Or.inr ⟨"hourly", inner, Or.inl rfl, hinner⟩)
      · have hd : ZDaily_safeParse res.body = .ok d := by simpa [hg] using hp
        obtain ⟨inner, hinner⟩ := safeParseShape_ok_shape "daily" res.body d hd
        exact Or.inr (Or.inr ⟨"daily", inner, Or.inr rfl, hinner⟩)

theorem GET_body_cases (q : Query) (fetcher : Nat → FetchOutcome) :
    (∃ m, (GET q fetcher).body = errorBody m ∧ m ≠ "Upstream error") ∨
    (∃ m, (GET q fetcher).body = fetchFailBody m) ∨
    (∃ issues, (GET q fetcher).body =
      .obj [("error", .str "Invalid schema"), ("details", issuesToJson issues)]) ∨
    (∃ key inner, (key = "hourly" ∨ key = "daily") ∧
      (GET q fetcher).body = .obj [(key, inner)]) := by
  simp only [GET]
  split
  · exact Or.inl ⟨_, rfl, by decide⟩
  · split
    · exact Or.inl ⟨_, rfl, by decide⟩
    · split
      · exact Or.inl ⟨_, rfl, by decide⟩
      · split
        · exact Or.inr (Or.inl ⟨_, rfl⟩)
        · rcases fetchStage_body_cases (q.gran.getD "hourly") _ fetcher with
            ⟨m, hm⟩ | ⟨issues, hi⟩ | ⟨key, inner, hkey, hb⟩
          · exact Or.inr (Or.inl ⟨m, hm⟩)
          · exact Or.inr (Or.inr (Or.inl ⟨issues, hi⟩))
          · exact Or.inr (Or.inr (Or.inr ⟨key, inner, hkey, hb⟩))

/-- C9: every response value returned (not thrown) by `fetchWithRetry`
satisfies `ok = true`; exhaustion on non-ok statuses surfaces as the thrown
aggregate error (handled by the catch-all 502 `Failed to fetch weather
data` path); consequently the handler's post-fetch non-ok branch is
unreachable — no invocation of `GET` ever returns the
`{error: 'Upstream error'}` body. -/
theorem GET_upstream_error_unreachable :
    (∀ (fetcher : Nat → FetchOutcome) (maxAttempts : Nat) (r : UpstreamResponse),
      (fetchWithRetry fetcher maxAttempts).result = .ok r → r.ok = true) ∧
    (∀ fetcher : Nat → FetchOutcome,
      (∀ i, i < 3 → ∃ r, fetcher i = .resp r ∧ r.ok = false) →
      (fetchWithRetry fetcher 3).result = .error .allFailed) ∧
    (∀ (q : Query) (fetcher : Nat → FetchOutcome),
      (GET q fetcher).body ≠ errorBody "Upstream error") := by
  refine ⟨fun fetcher ma r h => fetchRetryGo_ok_result fetcher ma 0 r h, ?_, ?_⟩
  · intro fetcher hf
    have hfail : ∀ i, i < 3 → (fetcher i).isFailure = true := by
      intro i hi
      obtain ⟨r, hr, hok⟩ := hf i hi
      simp [FetchOutcome.isFailure, hr, hok]
    obtain ⟨r2, hr2, -⟩ := hf 2 (by norm_num)
    exact (fetchWithRetry_three_failures fetcher (hfail 0 (by norm_num))
      (hfail 1 (by norm_num)) (hfail 2 (by norm_num))).2.2.1 r2 hr2
  · intro q fetcher h
    rcases GET_body_cases q fetcher with
      ⟨m, hb, hm⟩ | ⟨m, hb⟩ | ⟨issues, hb⟩ | ⟨key, inner, hkey, hb⟩
    · rw [h] at hb
      simp only [errorBody, Json.obj.injEq, List.cons.injEq, Prod.mk.injEq,
        Json.str.injEq, and_true, true_and] at hb
      exact hm hb.symm
    · rw [h] at hb
      simp [errorBody, fetchFailBody] at hb
    · rw [h] at hb
      simp [errorBody] at hb
    · rw [h] at hb
      simp only [errorBody, Json.obj.injEq, List.cons.injEq, Prod.mk.injEq,
        and_true, true_and] at hb
      rcases hkey with hk | hk <;> rw [hk] at hb <;> simp at hb

/-- Witness for `GET_upstream_error_unreachable`: the ok-implication at an
immediately successful fetcher, exhaustion on `nonOkFetcher`, and the
Upstream-error body never occurring at the Auckland query. -/
theorem GET_upstream_error_unreachable_witness :
    ((fetchWithRetry (fun _ => .resp ⟨true, 200, .null⟩) 3).result =
        .ok ⟨true, 200, .null⟩ → (true : Bool) = true) ∧
    (fetchWithRetry nonOkFetcher 3).result = .error .allFailed ∧
    (GET auckQuery nonOkFetcher).body ≠ errorBody "Upstream error" :=
  ⟨fun h => GET_upstream_error_unreachable.1 (fun _ => .resp ⟨true, 200, .null⟩) 3 _ h,
   GET_upstream_error_unreachable.2.1 nonOkFetcher
     (fun _ _ => ⟨⟨false, 500, .null⟩, rfl, rfl⟩),
   GET_upstream_error_unreachable.2.2 auckQuery nonOkFetcher⟩

/-! ## C10 -/

/-- C10: a `gran` value other than `hourly` and `daily` (e.g. `weekly`) is
not rejected: the handler passes it through unchecked (status is never 400
for a valid query), the built upstream URL contains neither an `hourly` nor
a `daily` query parameter, and the payload is validated against the daily
schema (any value other than exactly `hourly` selects the daily
validator). -/
theorem GET_unknown_granularity (q : Query) (fetcher : Nat → FetchOutcome)
    (ls los g : String) (hlat : q.lat = some ls) (hlon : q.lon = some los)
    (hls : ls ≠ "") (hlos : los ≠ "")
    (hnl : (jsNumber ls).isNan = false) (hno : (jsNumber los).isNan = false)
    (hval : isValidAU_NZCoords (jsNumber ls) (jsNumber los) = true)
    (hg : q.gran = some g) (hgh : g ≠ "hourly") (hgd : g ≠ "daily") :
    (GET q fetcher).status ≠ 400 ∧
    (∀ u, (GET q fetcher).url = some u →
      getParam u.query "hourly" = none ∧ getParam u.query "daily" = none) ∧
    (∀ r, fetcher 0 = .resp r → r.ok = true →
      (GET q fetcher).schemaUsed = some .daily) := by
  have hred := GET_valid_query q fetcher ls los hlat hlon hls hlos hnl hno hval
  have hgran : q.gran.getD "hourly" = g := by rw [hg]; rfl
  refine ⟨?_, ?_, ?_⟩
  · rw [hred]
    exact fetchStage_status_ne_400 _ _ fetcher
  · intro u hu
    rw [hred, fetchStage_url] at hu
    injection hu with hu
    subst hu
    constructor
    · exact getParam_builtQuery_not_hourly _ _ _ _
        (by rw [hgran]; exact beq_eq_false_iff_ne.mpr hgh)
    · exact getParam_builtQuery_not_daily _ _ _ _
        (by rw [hgran]; exact beq_eq_false_iff_ne.mpr hgd)
  · intro r hf0 hok
    have htr : fetchWithRetry fetcher 3 = ⟨.ok r, 1, []⟩ :=
      fetchRetryGo_first_ok fetcher 0 2 r hf0 hok
    have hres : (fetchWithRetry fetcher 3).result = .ok r := by rw [htr]
    rw [hred, fetchStage_schemaUsed _ _ fetcher r hres hok, hgran]
    simp [beq_eq_false_iff_ne.mpr hgh]

/-- Witness for `GET_unknown_granularity` at `gran=weekly` with an
immediately successful daily payload. -/
theorem GET_unknown_granularity_witness :
    (GET weeklyQuery dailyFetcher).status ≠ 400 ∧
    (GET weeklyQuery dailyFetcher).schemaUsed = some .daily := by
  obtain ⟨h1, h2, h3⟩ := GET_unknown_granularity weeklyQuery dailyFetcher
    "-36.8509" "174.7645" "weekly" rfl rfl (by decide) (by decide) (by decide)
    (by decide) (by decide) rfl (by decide) (by decide)
  exact ⟨h1, h3 ⟨true, 200, .obj [("daily", .obj [("time", .arr [.str "2025-01-21"])])]⟩
    rfl rfl⟩

end Weather
